import Mathlib

/-!
Verification of `prepare_rent_sell_count_data.py`.

The program has two stages:
* a Fetcher `get_rent_sell_count(playwright, type_str)` that drives a headless
  browser to one of four fixed URLs, retries navigation up to 3 times on
  timeout, extracts the text of a count element, strips non-digit characters,
  and degrades every failure to the sentinel `"0"`;
* a Recorder (the body of `main`) that loads credentials, reads all rows of a
  spreadsheet, and either overwrites the last row (when its date cell equals
  today's date) or appends a new row with `(date, rent, sell, wan_chai_rent,
  wan_chai_sell)` via five 1-indexed `update_cell` calls.

The effectful browser and spreadsheet APIs are modelled by explicit
environments recording the outcome of each external call; the Fetcher also
records an event trace so that resource-lifecycle properties (browser closed
on every path, no launch for invalid queries) can be stated directly.
-/

/-- Python exceptions that the fetch procedure can raise or observe. -/
inductive Exc where
  | valueError (msg : String)
  | timeoutError
  | other (msg : String)
deriving Repr, DecidableEq

/-- Outcome of one `page.goto` call: success, a `PlaywrightTimeoutError`
(caught by the retry loop), or some other exception (propagates to the
top-level handler). -/
inductive NavResult where
  | ok
  | timeout
  | err (e : Exc)
deriving Repr, DecidableEq

/-- Observable browser-API events performed during one fetch. -/
inductive Ev where
  | launch
  | newPage
  | goto (attempt : Nat)
  | waitSel
  | querySel
  | innerText
  | close
deriving Repr, DecidableEq

/-- Environment fixing the outcome of every external call the fetch body can
make: browser launch, page creation, each navigation attempt, the selector
wait, element lookup, and text extraction. -/
structure FetchEnv where
  launch : Except Exc Unit
  newPage : Except Exc Unit
  goto : Nat → NavResult
  waitForSelector : Except Exc Unit
  queryFound : Bool
  innerText : Except Exc String

/-- Result of one call to the fetcher: the returned value (`Except` so that
"never raises" is a provable statement), the trace of browser events, and
whether a browser instance is still open when the call returns. -/
structure FetchResult where
  retval : Except Exc String
  trace : List Ev
  browserOpen : Bool
deriving Repr

/-- The `url_map` dict of the source: four fixed query identifiers mapped to
fixed URLs (`url_map.get(type_str, "")` is modelled by `Option.getD`). -/
def url_map (type_str : String) : Option String :=
  if type_str = "RENT" then
    some "https://hk.centanet.com/findproperty/list/rent"
  else if type_str = "SELL" then
    some "https://hk.centanet.com/findproperty/list/buy"
  else if type_str = "WAN_CHAI_RENT" then
    some "https://hk.centanet.com/findproperty/list/rent/%E7%81%A3%E4%BB%94_19-HMA160?q=33e8505214"
  else if type_str = "WAN_CHAI_SELL" then
    some "https://hk.centanet.com/findproperty/list/buy/%E7%81%A3%E4%BB%94_19-HMA160?q=34d618e4ef"
  else
    none

/-- `re.sub(r'[^\d]', '', data)`: remove every non-digit character. -/
def stripNonDigits (s : String) : String :=
  String.mk (s.data.filter Char.isDigit)

/-- Outcome of the `for attempt in range(3)` navigation loop. -/
inductive NavOutcome where
  | success
  | exhausted
  | raised (e : Exc)
deriving Repr, DecidableEq

/-- The navigation retry loop, unrolled for `range(3)` exactly as in the
source: `break` on success, re-raise a non-timeout exception, and after a
timeout on `attempt == 2` give up (`exhausted`).  Also returns the trace of
`goto` attempts performed. -/
def fetchNav (env : FetchEnv) : NavOutcome × List Ev :=
  match env.goto 0 with
  | .ok => (.success, [.goto 0])
  | .err e => (.raised e, [.goto 0])
  | .timeout =>
    match env.goto 1 with
    | .ok => (.success, [.goto 0, .goto 1])
    | .err e => (.raised e, [.goto 0, .goto 1])
    | .timeout =>
      match env.goto 2 with
      | .ok => (.success, [.goto 0, .goto 1, .goto 2])
      | .err e => (.raised e, [.goto 0, .goto 1, .goto 2])
      | .timeout => (.exhausted, [.goto 0, .goto 1, .goto 2])

/-- The `try` block of `get_rent_sell_count`: returns the block's outcome
(a value or a pending exception), the event trace, and whether the browser
is open when the block exits. -/
def fetchTry (env : FetchEnv) (type_str : String) :
    Except Exc String × List Ev × Bool :=
  if (url_map type_str).getD "" = "" then
    (.error (.valueError ("Invalid type: " ++ type_str)), [], false)
  else
    match env.launch with
    | .error e => (.error e, [], false)
    | .ok _ =>
      match env.newPage with
      | .error e => (.error e, [.launch], true)
      | .ok _ =>
        match (fetchNav env).1 with
        | .raised e =>
          (.error e, Ev.launch :: Ev.newPage :: (fetchNav env).2, true)
        | .exhausted =>
          (.ok "0", (Ev.launch :: Ev.newPage :: (fetchNav env).2) ++ [.close], false)
        | .success =>
          match env.waitForSelector with
          | .error e =>
            (.error e, (Ev.launch :: Ev.newPage :: (fetchNav env).2) ++ [.waitSel], true)
          | .ok _ =>
            if !env.queryFound then
              (.error (.valueError (type_str ++ " - Could not find count element")),
               (Ev.launch :: Ev.newPage :: (fetchNav env).2) ++ [.waitSel, .querySel], true)
            else
              match env.innerText with
              | .error e =>
                (.error e,
                 (Ev.launch :: Ev.newPage :: (fetchNav env).2) ++
                   [.waitSel, .querySel, .innerText], true)
              | .ok data =>
                (.ok (stripNonDigits data),
                 (Ev.launch :: Ev.newPage :: (fetchNav env).2) ++
                   [.waitSel, .querySel, .innerText, .close], false)

/-- `get_rent_sell_count`: the `try` block followed by the top-level
`except Exception` handler, which closes the browser when `'browser' in
locals()` (i.e. a launch event occurred) and returns `"0"`. -/
def get_rent_sell_count (env : FetchEnv) (type_str : String) : FetchResult :=
  match fetchTry env type_str with
  | (.ok s, tr, opn) => { retval := .ok s, trace := tr, browserOpen := opn }
  | (.error _, tr, opn) =>
    if Ev.launch ∈ tr then
      { retval := .ok "0", trace := tr ++ [.close], browserOpen := false }
    else
      { retval := .ok "0", trace := tr, browserOpen := opn }

/-! ### Recorder: the spreadsheet-writing part of `main` -/

/-- Set the cell at 0-indexed position `c` of a row to `v`, padding missing
cells with `""` (a spreadsheet row behaves as an unbounded grid of initially
empty cells). -/
def setAt : List String → Nat → String → List String
  | [], 0, v => [v]
  | [], c + 1, v => "" :: setAt [] c v
  | _ :: t, 0, v => v :: t
  | h :: t, c + 1, v => h :: setAt t c v

/-- `sheet.update_cell(r, c, v)` with 1-indexed row `r` and column `c`:
writes `v` into that cell, padding with empty rows/cells as needed.
`r = 0` is an invalid index (gspread would reject it; never reached by the
program, whose row index is always ≥ 1). -/
def update_cell : List (List String) → Nat → Nat → String → List (List String)
  | rows, 0, _, _ => rows
  | [], 1, c, v => [setAt [] (c - 1) v]
  | [], r + 2, c, v => [] :: update_cell [] (r + 1) c v
  | row :: rest, 1, c, v => setAt row (c - 1) v :: rest
  | row :: rest, r + 2, c, v => row :: update_cell rest (r + 1) c v

/-- `str(df[0][i])` for `df = pd.DataFrame(rows)` and a 0-based positional
label `i`: `none` models a raised `KeyError` (no column `0` exists when every
row is empty; label `i` outside the row range); a row shorter than one cell
yields `NaN`, whose `str` is `"nan"`. -/
def str_df0_at (rows : List (List String)) (i : Nat) : Option String :=
  if rows.all List.isEmpty then none
  else
    match rows.get? i with
    | none => none
    | some row => some (row.headD "nan")

/-- `str(df[0][row_count - 1])` as evaluated by `main`: with `row_count = 0`
the Python index is `-1`, a missing label on an empty frame (`KeyError`),
modelled as `none`. -/
def last_row_lookup (rows : List (List String)) : Option String :=
  if rows.length = 0 then none
  else str_df0_at rows (rows.length - 1)

/-- Environment for the recording part of `main`: presence of `token.json`,
the outcome of the credential/authorization/open calls, today's date string
(`data_date = today.strftime('%Y-%m-%d')`), and the rows returned by
`sheet.get_all_values()`. -/
structure RecEnv where
  tokenExists : Bool
  authResult : Except String Unit
  sheetRows : List (List String)
  data_date : String

/-- Result of one run of the recording step: the string returned by `main`,
the final sheet state, and whether any `update_cell` call was made. -/
structure RecordResult where
  retval : String
  sheet : List (List String)
  wrote : Bool
deriving Repr

/-- The recording part of `main` (lines 94–129 of the source), parametrised
by the four fetched count strings.  Every exception is caught by the
top-level handler, which returns `"Error: " ++ str(e)` and leaves the sheet
untouched. -/
def record_counts (env : RecEnv) (rent_data sell_data wan_chai_rent_data
    wan_chai_sell_data : String) : RecordResult :=
  if !env.tokenExists then
    -- raise FileNotFoundError(f"Token file not found at {token_file_name}")
    { retval := "Error: Token file not found at token.json",
      sheet := env.sheetRows, wrote := false }
  else
    match env.authResult with
    | .error msg =>
      { retval := "Error: " ++ msg, sheet := env.sheetRows, wrote := false }
    | .ok _ =>
      let rows := env.sheetRows
      let row_count := rows.length
      let data_date := env.data_date
      match last_row_lookup rows with
      | none =>
        -- the KeyError raised by df[0][row_count - 1]; str(KeyError(0)) = "0"
        { retval := "Error: 0", sheet := rows, wrote := false }
      | some cell =>
        let current_row := if cell = data_date then row_count else row_count + 1
        let s1 := update_cell rows current_row 1 data_date
        let s2 := update_cell s1 current_row 2 rent_data
        let s3 := update_cell s2 current_row 3 sell_data
        let s4 := update_cell s3 current_row 4 wan_chai_rent_data
        let s5 := update_cell s4 current_row 5 wan_chai_sell_data
        { retval := "Success!", sheet := s5, wrote := true }

/-- Environment for a whole run of `main`: one fetch environment per query
plus the recorder environment. -/
structure MainEnv where
  fetchRENT : FetchEnv
  fetchSELL : FetchEnv
  fetchWCR : FetchEnv
  fetchWCS : FetchEnv
  recEnv : RecEnv

/-- The `main` function of the source (`main` itself is a reserved name in
Lean): the four sequential fetches followed by the recording step.  If a
fetch call itself raised (provably impossible), the exception would reach the
same top-level handler. -/
def main_run (env : MainEnv) : RecordResult :=
  match (get_rent_sell_count env.fetchRENT "RENT").retval,
        (get_rent_sell_count env.fetchSELL "SELL").retval,
        (get_rent_sell_count env.fetchWCR "WAN_CHAI_RENT").retval,
        (get_rent_sell_count env.fetchWCS "WAN_CHAI_SELL").retval with
  | .ok rent_data, .ok sell_data, .ok wan_chai_rent_data, .ok wan_chai_sell_data =>
    record_counts env.recEnv rent_data sell_data wan_chai_rent_data wan_chai_sell_data
  | _, _, _, _ =>
    { retval := "Error: fetch raised", sheet := env.recEnv.sheetRows, wrote := false }

/-- The cell at 0-indexed row `r`, column `c` of a sheet, if present. -/
def cellAt (rows : List (List String)) (r c : Nat) : Option String :=
  (rows.get? r).bind (fun row => row.get? c)

/-- First cell of every row (the date column), empty rows reading as `""`. -/
def firstCells (rows : List (List String)) : List String :=
  rows.map (fun row => row.headD "")

/-- The sheet invariant: the date cells are strictly increasing (ISO
`YYYY-MM-DD` strings compare lexicographically as dates), which also gives at
most one row per calendar date. -/
def sheetInv (rows : List (List String)) : Prop :=
  List.Chain' (· < ·) (firstCells rows)

instance (rows : List (List String)) : Decidable (sheetInv rows) :=
  inferInstanceAs (Decidable (List.Chain' (· < ·) (firstCells rows)))

/-! ### Helper lemmas about the Fetcher -/

theorem stripNonDigits_all_digit (s : String) :
    (stripNonDigits s).data.all Char.isDigit = true := by
  rw [List.all_eq_true]
  intro c hc
  exact (List.mem_filter.mp hc).2

theorem url_map_some_ne_empty {ts u : String} (h : url_map ts = some u) :
    u ≠ "" := by
  unfold url_map at h
  split at h
  · cases h; decide
  · split at h
    · cases h; decide
    · split at h
      · cases h; decide
      · split at h
        · cases h; decide
        · cases h

theorem url_map_eq_none {ts : String} (h1 : ts ≠ "RENT") (h2 : ts ≠ "SELL")
    (h3 : ts ≠ "WAN_CHAI_RENT") (h4 : ts ≠ "WAN_CHAI_SELL") :
    url_map ts = none := by
  simp [url_map, h1, h2, h3, h4]

/-- Structural facts about every possible outcome of the `try` block: a
normally-returned value is an all-digit string or `"0"`, and comes with the
browser already closed; and whenever no launch happened the browser cannot be
open. -/
theorem fetchTry_shape (env : FetchEnv) (ts : String) :
    (∀ s, (fetchTry env ts).1 = Except.ok s →
      (fetchTry env ts).2.2 = false ∧ Ev.close ∈ (fetchTry env ts).2.1 ∧
        (s.data.all Char.isDigit = true ∨ s = "0")) ∧
    (Ev.launch ∉ (fetchTry env ts).2.1 → (fetchTry env ts).2.2 = false) := by
  unfold fetchTry
  iterate 8 (all_goals (try split))
  all_goals simp
  all_goals exact Or.inl fun c hc => (List.mem_filter.mp hc).2

/-- Every call to the fetcher returns normally (never raises), and the value
is an all-digit string or the sentinel `"0"`. -/
theorem get_rent_sell_count_ok (env : FetchEnv) (ts : String) :
    ∃ s, (get_rent_sell_count env ts).retval = Except.ok s ∧
      (s.data.all Char.isDigit = true ∨ s = "0") := by
  have hs := fetchTry_shape env ts
  rcases h : fetchTry env ts with ⟨r, tr, opn⟩
  rw [h] at hs
  unfold get_rent_sell_count
  rw [h]
  cases r with
  | ok s => exact ⟨s, rfl, (hs.1 s rfl).2.2⟩
  | error e =>
    refine ⟨"0", ?_, Or.inr rfl⟩
    by_cases hm : Ev.launch ∈ tr <;> simp [hm]

/-! ### Concrete environments used by witnesses -/

/-- An environment in which every navigation attempt times out. -/
def envAllTimeout : FetchEnv :=
  { launch := .ok (), newPage := .ok (), goto := fun _ => .timeout,
    waitForSelector := .ok (), queryFound := true, innerText := .ok "1,234" }

/-- An environment in which every external call succeeds. -/
def envAllOk : FetchEnv :=
  { launch := .ok (), newPage := .ok (), goto := fun _ => .ok,
    waitForSelector := .ok (), queryFound := true, innerText := .ok "1,234" }

/-! ### Fetcher claims -/

/-- C1: for every query identifier, the Fetcher never raises: it returns
normally, and the returned string consists only of digit characters or is
exactly the sentinel `"0"` (every internal failure is converted to `"0"` by
the top-level handler). -/
theorem fetcher_returns_digit_string_or_zero (env : FetchEnv) (ts : String) :
    ∃ s, (get_rent_sell_count env ts).retval = Except.ok s ∧
      (s.data.all Char.isDigit = true ∨ s = "0") :=
  get_rent_sell_count_ok env ts

/-- C6: if navigation times out on all 3 attempts, the Fetcher returns `"0"`
with the browser closed, and never performs the selector wait, element
lookup, or text extraction. -/
theorem fetcher_timeout_exhaustion_returns_zero (env : FetchEnv) (ts u : String)
    (hu : url_map ts = some u)
    (hl : env.launch = Except.ok ()) (hp : env.newPage = Except.ok ())
    (h0 : env.goto 0 = NavResult.timeout) (h1 : env.goto 1 = NavResult.timeout)
    (h2 : env.goto 2 = NavResult.timeout) :
    (get_rent_sell_count env ts).retval = Except.ok "0" ∧
    (get_rent_sell_count env ts).browserOpen = false ∧
    Ev.close ∈ (get_rent_sell_count env ts).trace ∧
    Ev.waitSel ∉ (get_rent_sell_count env ts).trace ∧
    Ev.querySel ∉ (get_rent_sell_count env ts).trace ∧
    Ev.innerText ∉ (get_rent_sell_count env ts).trace := by
  have hnav : fetchNav env = (.exhausted, [.goto 0, .goto 1, .goto 2]) := by
    simp [fetchNav, h0, h1, h2]
  have hne : u ≠ "" := url_map_some_ne_empty hu
  have hft : fetchTry env ts =
      (.ok "0", [Ev.launch, Ev.newPage, Ev.goto 0, Ev.goto 1, Ev.goto 2, Ev.close],
       false) := by
    simp [fetchTry, hu, hl, hp, hnav, hne]
  have hres : get_rent_sell_count env ts =
      { retval := .ok "0",
        trace := [Ev.launch, Ev.newPage, Ev.goto 0, Ev.goto 1, Ev.goto 2, Ev.close],
        browserOpen := false } := by
    unfold get_rent_sell_count
    rw [hft]
  rw [hres]
  refine ⟨rfl, rfl, ?_, ?_, ?_, ?_⟩ <;> decide

/-- C7: an unknown query identifier (not among the four fixed keys of the
URL map) makes the Fetcher return `"0"`. -/
theorem fetcher_unknown_query_returns_zero (env : FetchEnv) (ts : String)
    (h1 : ts ≠ "RENT") (h2 : ts ≠ "SELL") (h3 : ts ≠ "WAN_CHAI_RENT")
    (h4 : ts ≠ "WAN_CHAI_SELL") :
    (get_rent_sell_count env ts).retval = Except.ok "0" := by
  have hn : url_map ts = none := url_map_eq_none h1 h2 h3 h4
  have hft : fetchTry env ts =
      (.error (.valueError ("Invalid type: " ++ ts)), [], false) := by
    simp [fetchTry, hn]
  unfold get_rent_sell_count
  rw [hft]
  simp

/-- C9: on every exit path the browser is not left open: `browserOpen` is
`false` after every call, and any launched browser was closed before
return. -/
theorem fetcher_browser_always_closed (env : FetchEnv) (ts : String) :
    (get_rent_sell_count env ts).browserOpen = false ∧
    (Ev.launch ∈ (get_rent_sell_count env ts).trace →
      Ev.close ∈ (get_rent_sell_count env ts).trace) := by
  have hs := fetchTry_shape env ts
  rcases h : fetchTry env ts with ⟨r, tr, opn⟩
  rw [h] at hs
  unfold get_rent_sell_count
  rw [h]
  cases r with
  | ok s =>
    obtain ⟨ho, hc, _⟩ := hs.1 s rfl
    exact ⟨ho, fun _ => hc⟩
  | error e =>
    by_cases hm : Ev.launch ∈ tr
    · simp [hm]
    · simp only [if_neg hm]
      exact ⟨hs.2 hm, fun hcon => absurd hcon hm⟩

/-- C10: an unknown query identifier is rejected before the browser launch:
the Fetcher returns `"0"` with no launch event and no open browser. -/
theorem fetcher_unknown_query_no_browser (env : FetchEnv) (ts : String)
    (h1 : ts ≠ "RENT") (h2 : ts ≠ "SELL") (h3 : ts ≠ "WAN_CHAI_RENT")
    (h4 : ts ≠ "WAN_CHAI_SELL") :
    (get_rent_sell_count env ts).retval = Except.ok "0" ∧
    Ev.launch ∉ (get_rent_sell_count env ts).trace ∧
    (get_rent_sell_count env ts).browserOpen = false := by
  have hn : url_map ts = none := url_map_eq_none h1 h2 h3 h4
  have hft : fetchTry env ts =
      (.error (.valueError ("Invalid type: " ++ ts)), [], false) := by
    simp [fetchTry, hn]
  have hres : get_rent_sell_count env ts =
      { retval := .ok "0", trace := [], browserOpen := false } := by
    unfold get_rent_sell_count
    rw [hft]
    simp
  rw [hres]
  exact ⟨rfl, by decide, rfl⟩

/-- Witness for C6 at a concrete environment and the `"RENT"` query. -/
theorem fetcher_timeout_exhaustion_returns_zero_witness :
    (get_rent_sell_count envAllTimeout "RENT").retval = Except.ok "0" ∧
    (get_rent_sell_count envAllTimeout "RENT").browserOpen = false ∧
    Ev.close ∈ (get_rent_sell_count envAllTimeout "RENT").trace ∧
    Ev.waitSel ∉ (get_rent_sell_count envAllTimeout "RENT").trace ∧
    Ev.querySel ∉ (get_rent_sell_count envAllTimeout "RENT").trace ∧
    Ev.innerText ∉ (get_rent_sell_count envAllTimeout "RENT").trace :=
  fetcher_timeout_exhaustion_returns_zero envAllTimeout "RENT"
    "https://hk.centanet.com/findproperty/list/rent" rfl rfl rfl rfl rfl rfl

/-- Witness for C7 at the concrete unknown identifier `"FOO"`. -/
theorem fetcher_unknown_query_returns_zero_witness :
    (get_rent_sell_count envAllOk "FOO").retval = Except.ok "0" :=
  fetcher_unknown_query_returns_zero envAllOk "FOO"
    (by decide) (by decide) (by decide) (by decide)

/-- Witness for C9 at a concrete environment. -/
theorem fetcher_browser_always_closed_witness :
    (get_rent_sell_count envAllOk "RENT").browserOpen = false ∧
    (Ev.launch ∈ (get_rent_sell_count envAllOk "RENT").trace →
      Ev.close ∈ (get_rent_sell_count envAllOk "RENT").trace) :=
  fetcher_browser_always_closed envAllOk "RENT"

/-- Witness for C10 at the concrete unknown identifier `"BAR"`. -/
theorem fetcher_unknown_query_no_browser_witness :
    (get_rent_sell_count envAllTimeout "BAR").retval = Except.ok "0" ∧
    Ev.launch ∉ (get_rent_sell_count envAllTimeout "BAR").trace ∧
    (get_rent_sell_count envAllTimeout "BAR").browserOpen = false :=
  fetcher_unknown_query_no_browser envAllTimeout "BAR"
    (by decide) (by decide) (by decide) (by decide)

/-! ### Helper lemmas about the Recorder -/

theorem setAt_get?_self (c : Nat) (l : List String) (v : String) :
    (setAt l c v).get? c = some v := by
  induction c generalizing l with
  | zero => cases l <;> rfl
  | succ c ih =>
    cases l with
    | nil => simpa [setAt] using ih []
    | cons h t => simpa [setAt] using ih t

theorem setAt_get?_lt (i c : Nat) (l : List String) (v : String) (h : i < c) :
    (setAt l c v).get? i = some (l.getD i "") := by
  induction c generalizing l i with
  | zero => omega
  | succ c ih =>
    cases l with
    | nil =>
      cases i with
      | zero => rfl
      | succ j => simpa [setAt] using ih j [] (by omega)
    | cons hd t =>
      cases i with
      | zero => rfl
      | succ j => simpa [setAt] using ih j t (by omega)

theorem update_cell_concat (init : List (List String)) (ρ : List String)
    (c : Nat) (v : String) :
    update_cell (init ++ [ρ]) (init.length + 1) c v =
      init ++ [setAt ρ (c - 1) v] := by
  induction init with
  | nil => rfl
  | cons r rest ih => simpa [update_cell] using ih

theorem update_cell_append (rows : List (List String)) (c : Nat) (v : String) :
    update_cell rows (rows.length + 1) c v = rows ++ [setAt [] (c - 1) v] := by
  induction rows with
  | nil => rfl
  | cons r rest ih => simpa [update_cell] using ih

theorem last_row_lookup_concat (init : List (List String)) (x : String)
    (t : List String) :
    last_row_lookup (init ++ [x :: t]) = some x := by
  have h1 : (init ++ [x :: t]).length = init.length + 1 := by simp
  have h2 : (init ++ [x :: t]).all List.isEmpty = false := by
    simp [List.all_append]
  have h3 : (init ++ [x :: t]).get? init.length = some (x :: t) :=
    List.get?_concat_length init (x :: t)
  simp [last_row_lookup, str_df0_at, h1, h2, h3]

theorem record_counts_token_missing (env : RecEnv) (a b c d : String)
    (h : env.tokenExists = false) :
    record_counts env a b c d =
      { retval := "Error: Token file not found at token.json",
        sheet := env.sheetRows, wrote := false } := by
  simp [record_counts, h]

theorem record_counts_auth_error (env : RecEnv) (a b c d m : String)
    (htok : env.tokenExists = true) (h : env.authResult = Except.error m) :
    record_counts env a b c d =
      { retval := "Error: " ++ m, sheet := env.sheetRows, wrote := false } := by
  simp [record_counts, htok, h]

theorem record_counts_lookup_none (env : RecEnv) (a b c d : String)
    (htok : env.tokenExists = true) (hauth : env.authResult = Except.ok ())
    (h : last_row_lookup env.sheetRows = none) :
    record_counts env a b c d =
      { retval := "Error: 0", sheet := env.sheetRows, wrote := false } := by
  simp [record_counts, htok, hauth, h]

/-- Core of the same-day path: when the last row's date cell equals
`data_date`, the five `update_cell` calls rewrite that same row in place. -/
theorem record_counts_overwrite (env : RecEnv) (a b c d : String)
    (init : List (List String)) (ρt : List String)
    (htok : env.tokenExists = true) (hauth : env.authResult = Except.ok ())
    (hrows : env.sheetRows = init ++ [env.data_date :: ρt]) :
    record_counts env a b c d =
      { retval := "Success!",
        sheet := init ++ [env.data_date ::
          setAt (setAt (setAt (setAt ρt 0 a) 1 b) 2 c) 3 d],
        wrote := true } := by
  have hlook : last_row_lookup (init ++ [env.data_date :: ρt]) =
      some env.data_date := last_row_lookup_concat init env.data_date ρt
  simp [record_counts, htok, hauth, hlook, hrows, update_cell_concat, setAt]

/-- Core of the new-day path: when the last row's date cell differs from
`data_date`, the five `update_cell` calls build one fresh row after the
existing ones. -/
theorem record_counts_append (env : RecEnv) (a b c d x : String)
    (htok : env.tokenExists = true) (hauth : env.authResult = Except.ok ())
    (hlook : last_row_lookup env.sheetRows = some x) (hne : x ≠ env.data_date) :
    record_counts env a b c d =
      { retval := "Success!",
        sheet := env.sheetRows ++ [[env.data_date, a, b, c, d]],
        wrote := true } := by
  simp [record_counts, htok, hauth, hlook, hne, update_cell_append,
    update_cell_concat, setAt]

/-- Inversion: a successful last-row lookup exposes the sheet as some rows
followed by a last row whose (padded) first cell is the looked-up value. -/
theorem last_row_lookup_some {rows : List (List String)} {cell : String}
    (h : last_row_lookup rows = some cell) :
    ∃ init ρ, rows = init ++ [ρ] ∧ cell = ρ.headD "nan" ∧
      rows.all List.isEmpty = false := by
  have hne : rows ≠ [] := by
    intro h0
    rw [h0] at h
    simp [last_row_lookup] at h
  obtain ⟨init, ρ, hdec⟩ : ∃ init ρ, rows = init ++ [ρ] :=
    ⟨rows.dropLast, rows.getLast hne, (List.dropLast_append_getLast hne).symm⟩
  subst hdec
  unfold last_row_lookup str_df0_at at h
  rw [if_neg (show ¬(init ++ [ρ]).length = 0 by simp)] at h
  by_cases hall : (init ++ [ρ]).all List.isEmpty = true
  · rw [if_pos hall] at h
    cases h
  · rw [if_neg hall] at h
    rw [show (init ++ [ρ]).length - 1 = init.length by simp,
        List.get?_concat_length] at h
    exact ⟨init, ρ, rfl, (Option.some.inj h).symm, by simpa using hall⟩

/-- No string is lexicographically smaller than the empty string. -/
theorem not_string_lt_empty (s : String) : ¬ s < "" := by
  intro h
  rw [String.lt_iff_toList_lt] at h
  generalize s.toList = l at h
  cases h

/-- The four count cells written by columns 2–5 are all retrievable from the
updated row, whatever the row contained before. -/
theorem setAt_chain4_get? (ρt : List String) (a b c d : String) :
    (setAt (setAt (setAt (setAt ρt 0 a) 1 b) 2 c) 3 d).get? 0 = some a ∧
    (setAt (setAt (setAt (setAt ρt 0 a) 1 b) 2 c) 3 d).get? 1 = some b ∧
    (setAt (setAt (setAt (setAt ρt 0 a) 1 b) 2 c) 3 d).get? 2 = some c ∧
    (setAt (setAt (setAt (setAt ρt 0 a) 1 b) 2 c) 3 d).get? 3 = some d := by
  have h0 : (setAt ρt 0 a).get? 0 = some a := setAt_get?_self 0 ρt a
  have h10 : (setAt (setAt ρt 0 a) 1 b).get? 0 = some a := by
    rw [setAt_get?_lt 0 1 _ _ (by omega), List.getD_eq_get?, h0]
    rfl
  have h11 : (setAt (setAt ρt 0 a) 1 b).get? 1 = some b := setAt_get?_self 1 _ b
  have h20 : (setAt (setAt (setAt ρt 0 a) 1 b) 2 c).get? 0 = some a := by
    rw [setAt_get?_lt 0 2 _ _ (by omega), List.getD_eq_get?, h10]
    rfl
  have h21 : (setAt (setAt (setAt ρt 0 a) 1 b) 2 c).get? 1 = some b := by
    rw [setAt_get?_lt 1 2 _ _ (by omega), List.getD_eq_get?, h11]
    rfl
  have h22 : (setAt (setAt (setAt ρt 0 a) 1 b) 2 c).get? 2 = some c :=
    setAt_get?_self 2 _ c
  refine ⟨?_, ?_, ?_, setAt_get?_self 3 _ d⟩
  · rw [setAt_get?_lt 0 3 _ _ (by omega), List.getD_eq_get?, h20]; rfl
  · rw [setAt_get?_lt 1 3 _ _ (by omega), List.getD_eq_get?, h21]; rfl
  · rw [setAt_get?_lt 2 3 _ _ (by omega), List.getD_eq_get?, h22]; rfl

/-! ### Recorder claims -/

/-- C2: running on the same calendar date as the last existing row overwrites
that row (1-indexed row `row_count`) with today's date and the four new
counts; the row count is unchanged, and rerunning on the same date again
leaves the row count unchanged as well. -/
theorem recorder_same_day_overwrites (env : RecEnv)
    (a b c d a2 b2 c2 d2 : String)
    (init : List (List String)) (ρt : List String)
    (htok : env.tokenExists = true) (hauth : env.authResult = Except.ok ())
    (hrows : env.sheetRows = init ++ [env.data_date :: ρt]) :
    (record_counts env a b c d).retval = "Success!" ∧
    (record_counts env a b c d).sheet.length = env.sheetRows.length ∧
    cellAt (record_counts env a b c d).sheet (env.sheetRows.length - 1) 0 =
      some env.data_date ∧
    cellAt (record_counts env a b c d).sheet (env.sheetRows.length - 1) 1 = some a ∧
    cellAt (record_counts env a b c d).sheet (env.sheetRows.length - 1) 2 = some b ∧
    cellAt (record_counts env a b c d).sheet (env.sheetRows.length - 1) 3 = some c ∧
    cellAt (record_counts env a b c d).sheet (env.sheetRows.length - 1) 4 = some d ∧
    (record_counts { env with sheetRows := (record_counts env a b c d).sheet }
        a2 b2 c2 d2).sheet.length = env.sheetRows.length := by
  obtain ⟨g0, g1, g2, g3⟩ := setAt_chain4_get? ρt a b c d
  rw [record_counts_overwrite env a b c d init ρt htok hauth hrows]
  have hlen : env.sheetRows.length = init.length + 1 := by rw [hrows]; simp
  rw [hlen]
  have hsecond :
      (record_counts
        { env with sheetRows := init ++ [env.data_date ::
            setAt (setAt (setAt (setAt ρt 0 a) 1 b) 2 c) 3 d] } a2 b2 c2 d2).sheet =
      init ++ [env.data_date ::
        setAt (setAt (setAt (setAt (setAt (setAt (setAt (setAt ρt 0 a) 1 b) 2 c) 3 d)
          0 a2) 1 b2) 2 c2) 3 d2] := by
    rw [record_counts_overwrite
      { env with sheetRows := init ++ [env.data_date ::
          setAt (setAt (setAt (setAt ρt 0 a) 1 b) 2 c) 3 d] } a2 b2 c2 d2 init
      (setAt (setAt (setAt (setAt ρt 0 a) 1 b) 2 c) 3 d) htok hauth rfl]
  refine ⟨rfl, by simp, ?_, ?_, ?_, ?_, ?_, ?_⟩
  · simp [cellAt, List.get?_concat_length]
  · simp only [cellAt, Nat.add_sub_cancel, List.get?_concat_length,
      Option.bind_some]
    exact g0
  · simp only [cellAt, Nat.add_sub_cancel, List.get?_concat_length,
      Option.bind_some]
    exact g1
  · simp only [cellAt, Nat.add_sub_cancel, List.get?_concat_length,
      Option.bind_some]
    exact g2
  · simp only [cellAt, Nat.add_sub_cancel, List.get?_concat_length,
      Option.bind_some]
    exact g3
  · rw [hsecond]
    simp

/-- C3: running on a new date appends exactly one row, written as the 5-tuple
`(date, rent, sell, district rent, district sell)` in columns 1–5; the row
count increases by exactly 1. -/
theorem recorder_new_day_appends (env : RecEnv) (a b c d x : String)
    (init : List (List String)) (ρt : List String)
    (htok : env.tokenExists = true) (hauth : env.authResult = Except.ok ())
    (hrows : env.sheetRows = init ++ [x :: ρt]) (hne : x ≠ env.data_date) :
    (record_counts env a b c d).retval = "Success!" ∧
    (record_counts env a b c d).sheet.length = env.sheetRows.length + 1 ∧
    (record_counts env a b c d).sheet.get? env.sheetRows.length =
      some [env.data_date, a, b, c, d] := by
  have hlook : last_row_lookup env.sheetRows = some x := by
    rw [hrows]; exact last_row_lookup_concat init x ρt
  rw [record_counts_append env a b c d x htok hauth hlook hne]
  exact ⟨rfl, by simp, List.get?_concat_length _ _⟩

/-- C5: on an empty sheet the last-row lookup `df[0][row_count - 1]` fails,
so the run takes the error branch: no write happens and the result string
starts with `"Error:"`. -/
theorem recorder_empty_sheet_errors (env : RecEnv) (a b c d : String)
    (htok : env.tokenExists = true) (hauth : env.authResult = Except.ok ())
    (hempty : env.sheetRows = []) :
    last_row_lookup env.sheetRows = none ∧
    (∃ rest, (record_counts env a b c d).retval = "Error:" ++ rest) ∧
    (record_counts env a b c d).sheet = env.sheetRows ∧
    (record_counts env a b c d).wrote = false := by
  have hlook : last_row_lookup env.sheetRows = none := by
    rw [hempty]; rfl
  rw [record_counts_lookup_none env a b c d htok hauth hlook]
  refine ⟨hlook, ⟨" 0", ?_⟩, rfl, rfl⟩
  show "Error: 0" = "Error:" ++ " 0"
  decide

/-- C4: when `token.json` is absent the run performs no spreadsheet write at
all and returns a string beginning with `"Error:"`. -/
theorem recorder_token_missing_aborts (env : MainEnv)
    (h : env.recEnv.tokenExists = false) :
    (∃ rest, (main_run env).retval = "Error:" ++ rest) ∧
    (main_run env).sheet = env.recEnv.sheetRows ∧
    (main_run env).wrote = false := by
  obtain ⟨s1, h1, -⟩ := get_rent_sell_count_ok env.fetchRENT "RENT"
  obtain ⟨s2, h2, -⟩ := get_rent_sell_count_ok env.fetchSELL "SELL"
  obtain ⟨s3, h3, -⟩ := get_rent_sell_count_ok env.fetchWCR "WAN_CHAI_RENT"
  obtain ⟨s4, h4, -⟩ := get_rent_sell_count_ok env.fetchWCS "WAN_CHAI_SELL"
  have hm : main_run env = record_counts env.recEnv s1 s2 s3 s4 := by
    unfold main_run
    rw [h1, h2, h3, h4]
  rw [hm, record_counts_token_missing env.recEnv s1 s2 s3 s4 h]
  refine ⟨⟨" Token file not found at token.json", ?_⟩, rfl, rfl⟩
  show "Error: Token file not found at token.json" =
    "Error:" ++ " Token file not found at token.json"
  decide

/-- C8: the sheet invariant (strictly increasing date cells, hence at most
one row per calendar date) is preserved by every run whose last row's date is
not later than today: the run either errors out (sheet unchanged), overwrites
the same-day last row, or appends a strictly later date. -/
theorem recorder_preserves_invariant (env : RecEnv) (a b c d : String)
    (hinv : sheetInv env.sheetRows)
    (hlast : ∀ ρ ∈ env.sheetRows.getLast?, ∀ x ∈ ρ.head?, x ≤ env.data_date) :
    sheetInv (record_counts env a b c d).sheet := by
  cases htok : env.tokenExists with
  | false =>
    rw [record_counts_token_missing env a b c d htok]
    exact hinv
  | true =>
    cases hauth : env.authResult with
    | error m =>
      rw [record_counts_auth_error env a b c d m htok hauth]
      exact hinv
    | ok u =>
      cases u
      cases hlook : last_row_lookup env.sheetRows with
      | none =>
        rw [record_counts_lookup_none env a b c d htok hauth hlook]
        exact hinv
      | some cell =>
        obtain ⟨init, ρ, hdec, hcell, hall⟩ := last_row_lookup_some hlook
        cases ρ with
        | nil =>
          exfalso
          have hinit : init ≠ [] := by
            intro h0
            rw [hdec, h0] at hall
            simp at hall
          have hinv' := hinv
          rw [hdec] at hinv'
          unfold sheetInv firstCells at hinv'
          rw [List.map_append] at hinv'
          obtain ⟨-, -, hrel⟩ := List.chain'_append.mp hinv'
          have hmapne : (init.map fun row => row.headD "") ≠ [] := by
            simpa using hinit
          obtain ⟨y, hy⟩ := Option.isSome_iff_exists.mp
            (List.getLast?_isSome.mpr hmapne)
          exact not_string_lt_empty y
            (by simpa using hrel y hy ((([] : List String)).headD "") rfl)
        | cons x t =>
          have hx : cell = x := by simpa using hcell
          have hle : x ≤ env.data_date := by
            refine hlast (x :: t) ?_ x rfl
            rw [hdec]
            simp [List.getLast?_concat]
          by_cases hxd : x = env.data_date
          · subst hxd
            rw [record_counts_overwrite env a b c d init t htok hauth hdec]
            have hfc : firstCells (init ++ [env.data_date ::
                setAt (setAt (setAt (setAt t 0 a) 1 b) 2 c) 3 d]) =
                firstCells env.sheetRows := by
              rw [hdec]
              simp [firstCells]
            unfold sheetInv
            rw [hfc]
            exact hinv
          · have hlt : x < env.data_date := lt_of_le_of_ne hle hxd
            rw [hx] at hlook
            rw [record_counts_append env a b c d x htok hauth hlook hxd]
            unfold sheetInv firstCells at hinv ⊢
            rw [List.map_append]
            refine List.chain'_append.mpr ⟨hinv, by simp, ?_⟩
            intro p hp q hq
            have hq' : q = env.data_date := by
              have := hq
              simp at this
              exact this.symm
            have hp' : p = x := by
              rw [hdec, List.map_append] at hp
              simp only [List.map_cons, List.map_nil] at hp
              rw [List.getLast?_concat] at hp
              have := hp
              simp at this
              exact this.symm
            rw [hp', hq']
            exact hlt

/-! ### Concrete recorder environments and witnesses -/

/-- A sheet whose last row already carries today's date. -/
def recEnvSameDay : RecEnv :=
  { tokenExists := true, authResult := .ok (),
    sheetRows := [["2024-01-01", "1", "2", "3", "4"],
                  ["2024-01-02", "5", "6", "7", "8"]],
    data_date := "2024-01-02" }

/-- A sheet whose last row carries yesterday's date. -/
def recEnvNewDay : RecEnv :=
  { tokenExists := true, authResult := .ok (),
    sheetRows := [["2024-01-01", "1", "2", "3", "4"]],
    data_date := "2024-01-02" }

/-- A completely empty sheet. -/
def recEnvEmpty : RecEnv :=
  { tokenExists := true, authResult := .ok (),
    sheetRows := [], data_date := "2024-01-02" }

/-- A run environment whose credential file is missing. -/
def mainEnvNoToken : MainEnv :=
  { fetchRENT := envAllOk, fetchSELL := envAllOk, fetchWCR := envAllOk,
    fetchWCS := envAllOk,
    recEnv := { tokenExists := false, authResult := .ok (),
                sheetRows := [["2024-01-01", "1", "2", "3", "4"]],
                data_date := "2024-01-02" } }

/-- Witness for C2: rerunning on the last row's date overwrites row 2 of a
2-row sheet and keeps the row count at 2. -/
theorem recorder_same_day_overwrites_witness :
    (record_counts recEnvSameDay "121" "46" "3" "1").retval = "Success!" ∧
    (record_counts recEnvSameDay "121" "46" "3" "1").sheet.length =
      recEnvSameDay.sheetRows.length ∧
    cellAt (record_counts recEnvSameDay "121" "46" "3" "1").sheet
      (recEnvSameDay.sheetRows.length - 1) 0 = some recEnvSameDay.data_date ∧
    cellAt (record_counts recEnvSameDay "121" "46" "3" "1").sheet
      (recEnvSameDay.sheetRows.length - 1) 1 = some "121" ∧
    cellAt (record_counts recEnvSameDay "121" "46" "3" "1").sheet
      (recEnvSameDay.sheetRows.length - 1) 2 = some "46" ∧
    cellAt (record_counts recEnvSameDay "121" "46" "3" "1").sheet
      (recEnvSameDay.sheetRows.length - 1) 3 = some "3" ∧
    cellAt (record_counts recEnvSameDay "121" "46" "3" "1").sheet
      (recEnvSameDay.sheetRows.length - 1) 4 = some "1" ∧
    (record_counts { recEnvSameDay with
        sheetRows := (record_counts recEnvSameDay "121" "46" "3" "1").sheet }
      "9" "9" "9" "9").sheet.length = recEnvSameDay.sheetRows.length :=
  recorder_same_day_overwrites recEnvSameDay "121" "46" "3" "1" "9" "9" "9" "9"
    [["2024-01-01", "1", "2", "3", "4"]] ["5", "6", "7", "8"] rfl rfl rfl

/-- Witness for C3: running on a new date turns a 1-row sheet into a 2-row
sheet whose new row is the 5-tuple. -/
theorem recorder_new_day_appends_witness :
    (record_counts recEnvNewDay "120" "45" "3" "1").retval = "Success!" ∧
    (record_counts recEnvNewDay "120" "45" "3" "1").sheet.length =
      recEnvNewDay.sheetRows.length + 1 ∧
    (record_counts recEnvNewDay "120" "45" "3" "1").sheet.get?
      recEnvNewDay.sheetRows.length =
      some [recEnvNewDay.data_date, "120", "45", "3", "1"] :=
  recorder_new_day_appends recEnvNewDay "120" "45" "3" "1" "2024-01-01"
    [] ["1", "2", "3", "4"] rfl rfl rfl (by decide)

/-- Witness for C5: the empty sheet takes the error branch and is left
unchanged. -/
theorem recorder_empty_sheet_errors_witness :
    last_row_lookup recEnvEmpty.sheetRows = none ∧
    (∃ rest, (record_counts recEnvEmpty "120" "45" "3" "1").retval =
      "Error:" ++ rest) ∧
    (record_counts recEnvEmpty "120" "45" "3" "1").sheet =
      recEnvEmpty.sheetRows ∧
    (record_counts recEnvEmpty "120" "45" "3" "1").wrote = false :=
  recorder_empty_sheet_errors recEnvEmpty "120" "45" "3" "1" rfl rfl rfl

/-- Witness for C4: a missing `token.json` aborts the whole recording step. -/
theorem recorder_token_missing_aborts_witness :
    (∃ rest, (main_run mainEnvNoToken).retval = "Error:" ++ rest) ∧
    (main_run mainEnvNoToken).sheet = mainEnvNoToken.recEnv.sheetRows ∧
    (main_run mainEnvNoToken).wrote = false :=
  recorder_token_missing_aborts mainEnvNoToken rfl

/-- Witness for C8 at a concrete invariant-satisfying sheet. -/
theorem recorder_preserves_invariant_witness :
    sheetInv (record_counts recEnvNewDay "120" "45" "3" "1").sheet :=
  recorder_preserves_invariant recEnvNewDay "120" "45" "3" "1"
    (by simp [sheetInv, firstCells, recEnvNewDay])
    (by
      intro ρ hρ x hx
      simp [recEnvNewDay] at hρ
      subst hρ
      simp at hx
      subst hx
      show ("2024-01-01" : String) ≤ "2024-01-02"
      rw [String.le_iff_toList_le]
      decide)
